import Mathlib

/-
Verification model of the pattern-generator repository.

The repository is a browser tool: an uploaded photo is run through a chain of
metadata-extraction heuristics (src/src/utils/metadataExtractor.ts), the
resulting record is mapped to render parameters, a p5 sketch draws the pattern
(src/src/ConsoleFrame.jsx), drag controls adjust parameters, and a small
express service (server) shells out to exiftool.

This file shallowly embeds those functions in Lean: JavaScript numbers become
ℚ, strings become String (with character-list helpers for the string methods
that the code uses), optional / possibly-undefined fields become Option, each
Math.random() call site becomes an explicit oracle argument, and browser or
library calls (fetch, exifr, canvas pixel access, Date formatting) become
oracle inputs summarising their outputs.  The theorems at the end settle the
documented properties of those functions.
-/

namespace PatternGen

/-- Lowercase a character list: model of JavaScript String.prototype.toLowerCase
restricted to the ASCII data this code base handles. -/
def lowerCL (cs : List Char) : List Char := cs.map Char.toLower

/-- Is the first list a prefix of the second (boolean, structural recursion). -/
def isPrefixCL : List Char → List Char → Bool
  | [], _ => true
  | _ :: _, [] => false
  | a :: as, b :: bs => a == b && isPrefixCL as bs

/-- Is `sub` a contiguous substring of the second list: model of
JavaScript String.prototype.includes. -/
def isInfixCL (sub : List Char) : List Char → Bool
  | [] => isPrefixCL sub []
  | c :: rest => isPrefixCL sub (c :: rest) || isInfixCL sub rest

/-- Model of JavaScript Math.round: round half toward positive infinity. -/
def jsMathRound (x : ℚ) : ℤ := ⌊x + 1/2⌋

/-- Truncation toward zero on ℚ, as used by the JavaScript % operator. -/
def ratTrunc (q : ℚ) : ℤ := if 0 ≤ q then ⌊q⌋ else ⌈q⌉

/-- Model of the JavaScript % operator on numbers (sign follows the dividend). -/
def jsMod (x y : ℚ) : ℚ := x - y * (ratTrunc (x / y) : ℚ)

/-- Numeric value of a list of decimal digit characters (most significant first). -/
def natOfDigits (ds : List Char) : ℕ := ds.foldl (fun a c => 10 * a + (c.toNat - 48)) 0

/-- JavaScript array indexing on a string array: out-of-range access yields
undefined, modelled as none. -/
def jsIndexStr (l : List String) (i : ℤ) : Option String :=
  if 0 ≤ i then l[i.toNat]? else none

/-- JavaScript array indexing on a numeric array: out-of-range access yields
undefined, modelled as none. -/
def jsIndexQ (l : List ℚ) (i : ℤ) : Option ℚ :=
  if 0 ≤ i then l[i.toNat]? else none

/-- GPS record of the ImageMetadata interface (both coordinates optional). -/
structure GpsCoords where
  latitude : Option ℚ
  longitude : Option ℚ
deriving DecidableEq

/-- The ImageMetadata interface of src/src/utils/metadataExtractor.ts: a flat
record of optional fields; a missing (undefined) field is none. -/
structure ImageMetadata where
  phoneType : Option String := none
  lensType : Option String := none
  lens : Option String := none
  iso : Option ℚ := none
  flash : Option Bool := none
  orientation : Option ℚ := none
  aperture : Option ℚ := none
  timeOfDay : Option String := none
  date : Option String := none
  time : Option String := none
  season : Option String := none
  gps : Option GpsCoords := none
  width : Option ℚ := none
  height : Option ℚ := none
deriving DecidableEq

/-- Model of convertDMSToDD (src/src/utils/metadataExtractor.ts lines 715-727):
convert a GPS degrees/minutes/seconds array plus hemisphere reference to decimal
degrees; any array whose length differs from three yields null (none). -/
def convertDMSToDD (dms : List ℚ) (ref : String) : Option ℚ :=
  match dms with
  | [d, m, s] =>
    let dd := d + m / 60 + s / (60 * 60)
    some (if ref = "S" ∨ ref = "W" then dd * (-1) else dd)
  | _ => none

/-- Model of analyzeImageCharacteristics (metadataExtractor.ts lines 165-275)
from the point where the sampled pixel statistics are in hand.  ctxOk models
canvas.getContext succeeding; avgBrightness / avgColorVariance summarise the
pixel-sampling loop (browser canvas I/O); rFlash and rTod are the two
Math.random() call sites. -/
def analyzeImageCharacteristics (ctxOk : Bool) (avgBrightness avgColorVariance : ℚ)
    (naturalWidth naturalHeight fileSize : ℚ) (rFlash rTod : ℚ) : ImageMetadata :=
  if ctxOk = false then {} else
  let aspectRatio := naturalWidth / naturalHeight
  let megapixels := naturalWidth * naturalHeight / 1000000
  let pl : String × String :=
    if aspectRatio > 7/10 ∧ aspectRatio < 8/10 ∧ megapixels > 10 then
      ("iPhone 15 Pro",
        if fileSize > 1000000 ∧ fileSize < 2000000 then "Ultra Wide"
        else if fileSize > 2000000 then "Wide"
        else "Front")
    else ("Smartphone", "Wide")
  let iso : ℚ :=
    if avgColorVariance < 20 then 32
    else if avgColorVariance < 40 then 100
    else if avgColorVariance < 60 then 200
    else 400
  let aperture : ℚ :=
    if pl.1 = "iPhone 15 Pro" then
      if pl.2 = "Ultra Wide" then 11/5
      else if pl.2 = "Wide" then 9/5
      else if pl.2 = "Telephoto" then 14/5
      else 9/5
    else 9/5
  let flash : Bool :=
    if avgBrightness > 200 then false
    else if avgBrightness < 100 then true
    else decide (rFlash < 1/5)
  let timeOfDay : String :=
    if avgBrightness > 150 then "day"
    else if avgBrightness < 80 then "night"
    else if rTod < 7/10 then "day" else "night"
  { phoneType := some pl.1, lensType := some pl.2, iso := some iso,
    aperture := some aperture, flash := some flash, timeOfDay := some timeOfDay }

/-- Model of detectPhoneTypeFromFile (metadataExtractor.ts lines 580-635):
bucket the file name and byte size into a device-class string. -/
def detectPhoneTypeFromFile (fileName : String) (fileSize : ℚ) : String :=
  let f := lowerCL fileName.toList
  if isInfixCL "img_".toList f || isInfixCL "iphone".toList f then
    if fileSize > 8000000 then "iPhone 15 Pro"
    else if fileSize > 6000000 then "iPhone 15"
    else if fileSize > 4000000 then "iPhone 14 Pro"
    else "iPhone 15 Pro"
  else if isInfixCL "samsung".toList f || isInfixCL "galaxy".toList f then
    if fileSize > 10000000 then "Samsung Galaxy S24 Ultra"
    else if fileSize > 6000000 then "Samsung Galaxy S24"
    else "Samsung Galaxy"
  else if isInfixCL "pixel".toList f then
    if fileSize > 8000000 then "Google Pixel 8 Pro" else "Google Pixel 8"
  else if isInfixCL "oneplus".toList f then "OnePlus"
  else if isInfixCL "xiaomi".toList f || isInfixCL "mi".toList f then "Xiaomi"
  else if fileSize > 10000000 then "Professional DSLR"
  else if fileSize > 5000000 then "Smartphone"
  else "Basic Camera"

/-- Model of detectLensTypeFromFile (metadataExtractor.ts lines 638-712).
r is the single Math.random() draw the taken branch performs; array indexing
with Math.floor(r * n) is modelled by jsIndexStr with "" standing for the
out-of-range undefined that r outside [0,1) would produce. -/
def detectLensTypeFromFile (fileName : String) (fileSize aspectRatio : ℚ) (r : ℚ) : String :=
  let f := lowerCL fileName.toList
  if isInfixCL "img_".toList f || isInfixCL "iphone".toList f then
    if isInfixCL "front".toList f || isInfixCL "selfie".toList f ||
        isInfixCL "portrait".toList f then "Front"
    else if fileSize > 10000000 then (if r > 3/5 then "Telephoto" else "Ultra Wide")
    else if fileSize > 8000000 then
      (jsIndexStr ["Wide", "Ultra Wide", "Telephoto"] ⌊r * 3⌋).getD ""
    else if fileSize > 6000000 then (if r > 4/5 then "Ultra Wide" else "Wide")
    else if fileSize > 4000000 then
      (jsIndexStr ["Wide", "Ultra Wide", "Telephoto"] ⌊r * 3⌋).getD ""
    else if fileSize < 2000000 then (if r > 7/10 then "Front" else "Wide")
    else if r < 2/5 then "Wide"
    else if r < 4/5 then "Ultra Wide"
    else if r < 19/20 then "Telephoto"
    else "Front"
  else if isInfixCL "samsung".toList f || isInfixCL "galaxy".toList f then
    if fileSize > 10000000 then
      (jsIndexStr ["Ultra Wide", "Telephoto"] ⌊r * 2⌋).getD ""
    else if fileSize > 6000000 then (if r > 7/10 then "Ultra Wide" else "Wide")
    else (if r > 4/5 then "Ultra Wide" else "Wide")
  else if isInfixCL "pixel".toList f then
    if fileSize > 8000000 then
      (jsIndexStr ["Ultra Wide", "Telephoto"] ⌊r * 2⌋).getD ""
    else (if r > 3/5 then "Wide" else "Ultra Wide")
  else if aspectRatio > 3/2 then (if r > 3/10 then "Ultra Wide" else "Wide")
  else if aspectRatio < 7/10 then (if r > 2/5 then "Telephoto" else "Front")
  else if fileSize > 8000000 then
    (jsIndexStr ["Ultra Wide", "Telephoto"] ⌊r * 2⌋).getD ""
  else if fileSize > 5000000 then
    (if r < 3/5 then "Wide" else if r < 4/5 then "Ultra Wide" else "Telephoto")
  else
    (if r < 7/10 then "Wide" else if r < 9/10 then "Front" else "Ultra Wide")

/-- Take exactly n decimal digits from the front of a character list. -/
def takeDigits : ℕ → List Char → Option (List Char × List Char)
  | 0, rest => some ([], rest)
  | _ + 1, [] => none
  | n + 1, c :: rest =>
    if c.isDigit then (takeDigits n rest).map (fun p => (c :: p.1, p.2)) else none

/-- Try the filename-date pattern at the head of the list: the regex
img_(4 digits)(2 digits)(2 digits)_(2 digits)(2 digits)(2 digits) of
extractFromFileProperties, anchored at this position. -/
def matchImgDateHere (cs : List Char) :
    Option (List Char × List Char × List Char × List Char × List Char × List Char) :=
  match cs with
  | 'i' :: 'm' :: 'g' :: '_' :: rest =>
    (takeDigits 4 rest).bind fun py =>
    (takeDigits 2 py.2).bind fun pmo =>
    (takeDigits 2 pmo.2).bind fun pd =>
    match pd.2 with
    | '_' :: r4 =>
      (takeDigits 2 r4).bind fun phh =>
      (takeDigits 2 phh.2).bind fun pmi =>
      (takeDigits 2 pmi.2).map fun pss =>
        (py.1, pmo.1, pd.1, phh.1, pmi.1, pss.1)
    | _ => none
  | _ => none

/-- Scan left to right for the first position where the filename-date pattern
matches (the fixed-width regex never backtracks, so leftmost-match search is
exactly JavaScript String.prototype.match without the global flag). -/
def searchImgDate : List Char →
    Option (List Char × List Char × List Char × List Char × List Char × List Char)
  | [] => none
  | c :: rest =>
    match matchImgDateHere (c :: rest) with
    | some m => some m
    | none => searchImgDate rest

/-- Season from a 1-based month number, as in extractFromFileProperties. -/
def seasonOfMonth (month : ℚ) : String :=
  if 3 ≤ month ∧ month ≤ 5 then "spring"
  else if 6 ≤ month ∧ month ≤ 8 then "summer"
  else if 9 ≤ month ∧ month ≤ 11 then "autumn"
  else "winter"

/-- Model of new Date(s).getMonth() + 1 for an ISO "YYYY-MM-DD" string
(read as UTC): the two digit characters after the first hyphen. -/
def monthOfDateStr (s : String) : ℚ :=
  ((natOfDigits ((s.toList.drop 5).take 2) : ℕ) : ℚ)

/-- The five Math.random() call sites of extractFromFileProperties and its lens
helper, one oracle value each. -/
structure FilePropsRand where
  rLens : ℚ
  rIso : ℚ
  rAperture : ℚ
  rFlash : ℚ
  rTimeOfDay : ℚ
deriving DecidableEq

/-- Model of extractFromFileProperties (metadataExtractor.ts lines 729-879).
The function builds a fresh record, so every presence guard on its own fields
sees them unset and every assignment below runs; lmDate / lmTime / lmHour model
the host-formatted file.lastModified used when the filename carries no
timestamp, and curMonth the current month of the unreachable season fallback. -/
def extractFromFileProperties (name : String) (size elemW elemH : ℚ) (rnd : FilePropsRand)
    (lmDate lmTime : String) (lmHour curMonth : ℚ) : ImageMetadata :=
  let fileName := lowerCL name.toList
  let aspectRatio := elemW / elemH
  let phoneType := detectPhoneTypeFromFile (String.mk fileName) size
  let lensType := detectLensTypeFromFile (String.mk fileName) size aspectRatio rnd.rLens
  let lens := phoneType ++ " " ++ lensType
  let iso : Option ℚ :=
    if size > 8000000 then some (if rnd.rIso > 1/2 then 32 else 64)
    else if size > 4000000 then some (if rnd.rIso > 1/2 then 100 else 200)
    else jsIndexQ [32, 64, 100, 200, 400] ⌊rnd.rIso * 5⌋
  let aperture : ℚ :=
    if isInfixCL "iPhone".toList phoneType.toList then
      if lensType = "Wide" then (if rnd.rAperture > 1/2 then 3/2 else 9/5)
      else if lensType = "Ultra Wide" then (if rnd.rAperture > 1/2 then 11/5 else 12/5)
      else if lensType = "Telephoto" then (if rnd.rAperture > 1/2 then 14/5 else 3)
      else 9/5
    else if isInfixCL "Samsung".toList phoneType.toList then
      (if rnd.rAperture > 1/2 then 9/5 else 12/5)
    else (if rnd.rAperture > 1/2 then 9/5 else 11/5)
  let flash : Bool := decide (rnd.rFlash < 1/5)
  let orientation : ℚ :=
    if aspectRatio > 13/10 then 1
    else if aspectRatio < 4/5 then 6
    else 1
  let dt : String × String × String :=
    match searchImgDate fileName with
    | some (y, mo, d, hh, mi, ss) =>
      (String.mk y ++ "-" ++ String.mk mo ++ "-" ++ String.mk d,
       String.mk hh ++ ":" ++ String.mk mi ++ ":" ++ String.mk ss,
       if 6 ≤ natOfDigits hh ∧ natOfDigits hh < 18 then "day" else "night")
    | none =>
      (lmDate, lmTime, if 6 ≤ lmHour ∧ lmHour < 18 then "day" else "night")
  let season :=
    if dt.1 ≠ "" then seasonOfMonth (monthOfDateStr dt.1)
    else seasonOfMonth curMonth
  { phoneType := some phoneType, lensType := some lensType, lens := some lens,
    iso := iso, aperture := some aperture, flash := some flash,
    orientation := some orientation, date := some dt.1, time := some dt.2.1,
    timeOfDay := some dt.2.2, season := some season }

/-- Model of Object.assign(m, a): every field present on a overwrites m. -/
def objectAssign (m a : ImageMetadata) : ImageMetadata where
  phoneType := a.phoneType <|> m.phoneType
  lensType := a.lensType <|> m.lensType
  lens := a.lens <|> m.lens
  iso := a.iso <|> m.iso
  flash := a.flash <|> m.flash
  orientation := a.orientation <|> m.orientation
  aperture := a.aperture <|> m.aperture
  timeOfDay := a.timeOfDay <|> m.timeOfDay
  date := a.date <|> m.date
  time := a.time <|> m.time
  season := a.season <|> m.season
  gps := a.gps <|> m.gps
  width := a.width <|> m.width
  height := a.height <|> m.height

/-- The keyed merge loops of extractRealMetadata: copy a field of e into m only
when m's field is undefined (the file-based loop also accepts null, which this
Option model identifies with undefined). -/
def fillUndefined (m e : ImageMetadata) : ImageMetadata where
  phoneType := m.phoneType <|> e.phoneType
  lensType := m.lensType <|> e.lensType
  lens := m.lens <|> e.lens
  iso := m.iso <|> e.iso
  flash := m.flash <|> e.flash
  orientation := m.orientation <|> e.orientation
  aperture := m.aperture <|> e.aperture
  timeOfDay := m.timeOfDay <|> e.timeOfDay
  date := m.date <|> e.date
  time := m.time <|> e.time
  season := m.season <|> e.season
  gps := m.gps <|> e.gps
  width := m.width <|> e.width
  height := m.height <|> e.height

/-- Model of extractRealMetadata (metadataExtractor.ts lines 32-115).
exifToolResult is the ExifTool API stage (none on any network / HTTP / JSON
failure, when the function falls through); on the fallback path the record
starts with the image element dimensions, Object.assign copies the pixel
analysis over it, then the modern-EXIF record (none when exifr threw or found
nothing) and the file-based record fill still-undefined fields only. -/
def extractRealMetadata (exifToolResult : Option ImageMetadata)
    (elemW elemH : ℚ) (imageAnalysis : ImageMetadata)
    (exifData : Option ImageMetadata) (fileBasedData : ImageMetadata) : ImageMetadata :=
  match exifToolResult with
  | some m => m
  | none =>
    let m0 : ImageMetadata := { width := some elemW, height := some elemH }
    let m1 := objectAssign m0 imageAnalysis
    let m2 :=
      match exifData with
      | some e => fillUndefined m1 e
      | none => m1
    fillUndefined m2 fileBasedData

/-- Truthiness of an optional JavaScript number (undefined and 0 are falsy). -/
def numTruthy (x : Option ℚ) : Bool :=
  match x with
  | some v => decide (v ≠ 0)
  | none => false

/-- Truthiness of an optional JavaScript string (undefined and "" are falsy). -/
def strTruthy (x : Option String) : Bool :=
  match x with
  | some s => decide (s ≠ "")
  | none => false

/-- The P5PatternParams record produced by mapMetadataToP5Params (the pattern
parameter mapper half of src/src/utils/metadataExtractor.ts).  The iso and
season fields mirror the identically named pass-through fields of the source
record. -/
structure P5PatternParams where
  shape : String
  density : ℚ
  alignment : String
  sharpness : String
  seed : ℚ
  flowIntensity : ℚ
  organicCurves : Bool
  depthLayers : ℚ
  colorGradient : Bool
  iridescentEffect : Bool
  centralGlow : Bool
  particleSize : ℚ
  motionBlur : ℚ
  noiseScale : ℚ
  noiseSpeed : ℚ
  particleCount : ℤ
  streamCount : ℚ
  turbulence : ℚ
  colorShift : ℚ
  glowIntensity : ℚ
  patternType : Option String
  iso : Option ℚ
  season : Option String
  tintColor : Option String
deriving DecidableEq

/-- Model of mapLensToShape (metadataExtractor.ts lines 2058-2066). -/
def mapLensToShape (lens : Option String) : String :=
  match lens with
  | none => "star"
  | some l =>
    if l = "" then "star"
    else
      let s := lowerCL l.toList
      if isInfixCL "front".toList s || isInfixCL "selfie".toList s then "circle"
      else if isInfixCL "wide".toList s && !isInfixCL "ultra".toList s then "rectangle"
      else if isInfixCL "telephoto".toList s || isInfixCL "zoom".toList s then "triangle"
      else if isInfixCL "ultra wide".toList s || isInfixCL "ultra-wide".toList s then "rhombus"
      else "star"

/-- Model of mapIsoToDensity (metadataExtractor.ts lines 2068-2074): linear
interpolation of the clamped sensitivity between fixed endpoints, rounded to
two decimals; a falsy sensitivity (undefined or 0) short-circuits to 0.3. -/
def mapIsoToDensity (iso : Option ℚ) : ℚ :=
  match iso with
  | none => 3/10
  | some i =>
    if i = 0 then 3/10
    else
      let minIso : ℚ := 24
      let maxIso : ℚ := 2000
      let minDensity : ℚ := 1/20
      let maxDensity : ℚ := 1
      let clampedIso := max minIso (min maxIso i)
      let normalizedIso := (clampedIso - minIso) / (maxIso - minIso)
      (jsMathRound ((minDensity + normalizedIso * (maxDensity - minDensity)) * 100) : ℚ) / 100

/-- Model of mapOrientationToAlignment (metadataExtractor.ts lines 2076-2081). -/
def mapOrientationToAlignment (o : Option ℚ) : String :=
  match o with
  | none => "both"
  | some v =>
    if v = 0 then "both"
    else if v = 1 ∨ v = 3 then "horizontal"
    else if v = 6 ∨ v = 8 then "vertical"
    else "both"

/-- Model of mapFlashToSharpness (metadataExtractor.ts lines 2083-2085). -/
def mapFlashToSharpness (flash : Option Bool) : String :=
  match flash with
  | none => "sharp"
  | some b => if b then "blurred" else "sharp"

/-- Model of mapMetadataToFlowIntensity (metadataExtractor.ts lines 2087-2098). -/
def mapMetadataToFlowIntensity (m : ImageMetadata) : ℚ :=
  let base : ℚ := 3/10
  let i1 := base +
    (if numTruthy m.iso && decide ((m.iso.getD 0) > 800) then 2/5
     else if numTruthy m.iso && decide ((m.iso.getD 0) > 400) then 1/5
     else 0)
  let i2 := i1 +
    (if strTruthy m.lens then
      let s := lowerCL (m.lens.getD "").toList
      if isInfixCL "ultra wide".toList s then 3/10
      else if isInfixCL "wide".toList s then 1/5
      else 0
     else 0)
  let i3 := i2 + (if m.flash = some true then 1/5 else 0)
  min 1 i3

/-- Model of mapMetadataToOrganicCurves (metadataExtractor.ts lines 2100-2104). -/
def mapMetadataToOrganicCurves (m : ImageMetadata) : Bool :=
  if !strTruthy m.lens then false
  else
    let s := lowerCL (m.lens.getD "").toList
    isInfixCL "ultra wide".toList s || isInfixCL "wide".toList s ||
      isInfixCL "front".toList s

/-- Model of mapMetadataToDepthLayers (metadataExtractor.ts lines 2106-2112). -/
def mapMetadataToDepthLayers (m : ImageMetadata) : ℚ :=
  let layers : ℚ := 2 +
    (if numTruthy m.iso && decide ((m.iso.getD 0) > 800) then 2
     else if numTruthy m.iso && decide ((m.iso.getD 0) > 400) then 1
     else 0)
  let layers2 := layers + (if m.flash = some true then 1 else 0)
  min 5 (max 1 layers2)

/-- Model of mapMetadataToColorGradient (metadataExtractor.ts lines 2114-2117). -/
def mapMetadataToColorGradient (m : ImageMetadata) : Bool :=
  if m.flash = some true then true
  else m.season = some "summer" || m.season = some "autumn"

/-- Model of mapMetadataToIridescentEffect (metadataExtractor.ts lines 2119-2121). -/
def mapMetadataToIridescentEffect (m : ImageMetadata) : Bool :=
  (m.flash = some true && numTruthy m.iso && decide ((m.iso.getD 0) > 600)) ||
    m.season = some "summer"

/-- Model of mapMetadataToCentralGlow (metadataExtractor.ts lines 2123-2130). -/
def mapMetadataToCentralGlow (m : ImageMetadata) : Bool :=
  if m.flash = some true then true
  else if strTruthy m.lens then
    let s := lowerCL (m.lens.getD "").toList
    isInfixCL "front".toList s || isInfixCL "wide".toList s
  else false

/-- Model of mapMetadataToParticleSize (metadataExtractor.ts lines 2132-2138). -/
def mapMetadataToParticleSize (m : ImageMetadata) : ℚ :=
  let size : ℚ := 1 -
    (if numTruthy m.iso && decide ((m.iso.getD 0) > 800) then 3/10
     else if numTruthy m.iso && decide ((m.iso.getD 0) > 400) then 1/10
     else 0)
  let size2 := size + (if m.flash = some true then 1/5 else 0)
  max (1/2) (min 3 size2)

/-- Model of mapMetadataToMotionBlur (metadataExtractor.ts lines 2140-2146). -/
def mapMetadataToMotionBlur (m : ImageMetadata) : ℚ :=
  let blur : ℚ := 0 + (if m.flash = some true then 2/5 else 0)
  let blur2 := blur +
    (if numTruthy m.iso && decide ((m.iso.getD 0) > 800) then 3/10
     else if numTruthy m.iso && decide ((m.iso.getD 0) > 400) then 1/10
     else 0)
  min 1 blur2

/-- The lens-keyword arm of mapMetadataToPatternType; none when no keyword
matches and control falls through to the iso / flash / time / season arms. -/
def patternTypeLensArm (lensType : String) : Option String :=
  let s := lowerCL lensType.toList
  if isInfixCL "ultra wide".toList s then some "wave"
  else if isInfixCL "telephoto".toList s then some "topographic"
  else if isInfixCL "front".toList s then some "bouncing"
  else if isInfixCL "wide".toList s then some "contour"
  else none

/-- Model of mapMetadataToPatternType (metadataExtractor.ts lines 2148-2217). -/
def mapMetadataToPatternType (m : ImageMetadata) : String :=
  match (if strTruthy m.lensType then patternTypeLensArm (m.lensType.getD "") else none) with
  | some p => p
  | none =>
    if numTruthy m.iso then
      (if (m.iso.getD 0) ≤ 100 then "wave"
       else if (m.iso.getD 0) ≤ 400 then "contour"
       else "static")
    else if m.flash = some true then "bouncing"
    else if strTruthy m.timeOfDay then
      (if m.timeOfDay = some "night" then "static" else "wave")
    else if strTruthy m.season then
      (if m.season = some "spring" then "wave"
       else if m.season = some "summer" then "bouncing"
       else if m.season = some "autumn" then "topographic"
       else if m.season = some "winter" then "static"
       else "contour")
    else "contour"

/-- Model of mapMetadataToP5Params (metadataExtractor.ts lines 1971-2030).
seed is the optional caller seed (a falsy seed falls back to Date.now(),
modelled by the now argument). -/
def mapMetadataToP5Params (m : ImageMetadata) (seed : Option ℚ) (now : ℚ) : P5PatternParams :=
  let randomSeed :=
    match seed with
    | some s => if s = 0 then now else s
    | none => now
  { shape := mapLensToShape m.lens
    density := mapIsoToDensity m.iso
    alignment := mapOrientationToAlignment m.orientation
    sharpness := mapFlashToSharpness m.flash
    seed := randomSeed
    flowIntensity := mapMetadataToFlowIntensity m
    organicCurves := mapMetadataToOrganicCurves m
    depthLayers := mapMetadataToDepthLayers m
    colorGradient := mapMetadataToColorGradient m
    iridescentEffect := mapMetadataToIridescentEffect m
    centralGlow := mapMetadataToCentralGlow m
    particleSize := mapMetadataToParticleSize m
    motionBlur := mapMetadataToMotionBlur m
    noiseScale := 1/100 + (if numTruthy m.iso then (m.iso.getD 0) / 20000 else 1/100)
    noiseSpeed := 1 + (if numTruthy m.iso then (m.iso.getD 0) / 1000 else 1)
    particleCount := ⌊(50 : ℚ) + (if numTruthy m.iso then (m.iso.getD 0) / 20 else 50)⌋
    streamCount := 3 + (if m.flash = some true then 2 else 0)
    turbulence := 1/2 + (if numTruthy m.iso then (m.iso.getD 0) / 2000 else 1/2)
    colorShift := if m.flash = some true then 2 else 1/2
    glowIntensity := if m.flash = some true then 4/5 else 3/10
    patternType := some (mapMetadataToPatternType m)
    iso := m.iso
    season := m.season
    tintColor := none }

/-- A p5 HSB color with alpha, the representation applyTint works in. -/
structure HSBColor where
  h : ℚ
  s : ℚ
  b : ℚ
  a : ℚ
deriving DecidableEq

/-- Model of applyTint (metadataExtractor.ts lines 2033-2055): a falsy
tintColor (null / undefined / "") returns the color unchanged; otherwise the
hue is shifted toward the tint hue mod 360, saturation and brightness are
nudged and capped at 100, alpha is kept.  The tint argument is the p5-parsed
HSB value of the tint string. -/
def applyTint (color : HSBColor) (tintColor : Option HSBColor) : HSBColor :=
  match tintColor with
  | none => color
  | some tint =>
    { h := jsMod (color.h + tint.h * (3/10)) 360
      s := min 100 (color.s + tint.s * (2/10))
      b := min 100 (color.b + (tint.b - 50) * (1/10))
      a := color.a }

/-- One hexadecimal digit value. -/
def hexDigitVal (c : Char) : Option ℕ :=
  if '0' ≤ c ∧ c ≤ '9' then some (c.toNat - 48)
  else if 'a' ≤ c ∧ c ≤ 'f' then some (c.toNat - 87)
  else if 'A' ≤ c ∧ c ≤ 'F' then some (c.toNat - 55)
  else none

/-- Model of parseInt(s.slice(i, i+2), 16): parse up to two hex digits starting
at index i, stopping at the first invalid character; none models NaN. -/
def hexPairAt (s : String) (i : ℕ) : Option ℚ :=
  match (s.toList.drop i).take 2 with
  | c1 :: rest =>
    match hexDigitVal c1 with
    | none => none
    | some a =>
      match rest with
      | [c2] =>
        match hexDigitVal c2 with
        | some b => some (((16 * a + b : ℕ) : ℚ))
        | none => some ((a : ℕ) : ℚ)
      | _ => some ((a : ℕ) : ℚ)
  | [] => none

/-- Model of the per-shape fill-color choice inside drawWavePattern
(src/src/ConsoleFrame.jsx lines 179-194): the base color is white; a truthy
tint different from the "#FFFFFF" marker multiplies white by the tint channel
by channel (floored, capped at 255); otherwise white is used unchanged.
none models the NaN-poisoned fill an unparsable tint string would give. -/
def waveFillColor (tint : Option String) : Option (ℚ × ℚ × ℚ) :=
  match tint with
  | none => some (255, 255, 255)
  | some t =>
    if t ≠ "#FFFFFF" then
      match hexPairAt t 1, hexPairAt t 3, hexPairAt t 5 with
      | some r, some g, some b =>
        some (min 255 ((⌊255 * r / 255⌋ : ℤ) : ℚ),
              min 255 ((⌊255 * g / 255⌋ : ℤ) : ℚ),
              min 255 ((⌊255 * b / 255⌋ : ℤ) : ℚ))
      | _, _, _ => none
    else some (255, 255, 255)

/-- The transient drag state of the pattern-type selector in the Controls
component (src Controls file): the drag origin x and the pattern index held in
dragStartValue (an ℤ because Array.prototype.indexOf can yield -1). -/
structure PatternDragState where
  startX : ℚ
  idx : ℤ
deriving DecidableEq

/-- Model of the patternType case of handleMouseMove in the Controls component:
one processed mousemove at clientX.  If the distance from the drag origin
exceeds the 50px threshold, step the index one place (clamped to 0..2); only
when the index actually changes are the index and the drag origin updated. -/
def patternTypeDragStep (s : PatternDragState) (clientX : ℚ) : PatternDragState :=
  let deltaX := clientX - s.startX
  if |deltaX| > 50 then
    let newIndex := if deltaX > 0 then min 2 (s.idx + 1) else max 0 (s.idx - 1)
    if newIndex ≠ s.idx then { startX := clientX, idx := newIndex } else s
  else s

/-- Model of the canvas dimension resolution in p.setup (metadataExtractor.ts
p5 sketch, lines 956-997): clientWidth/Height, then offsetWidth/Height, then
getBoundingClientRect, then the hardcoded 500 by 400 fallback, finally clamped
to the 100..2000 range. -/
def setupCanvasSize (cw ch ow oh rw rh : ℚ) : ℚ × ℚ :=
  let wh : ℚ × ℚ :=
    if cw > 0 ∧ ch > 0 then (cw, ch)
    else if ow > 0 ∧ oh > 0 then (ow, oh)
    else if rw > 0 ∧ rh > 0 then (rw, rh)
    else (0, 0)
  let wh2 := if wh.1 ≤ 0 ∨ wh.2 ≤ 0 then ((500 : ℚ), (400 : ℚ)) else wh
  (max (min wh2.1 2000) 100, max (min wh2.2 2000) 100)

/-- Model of the identical dimension resolution in p.windowResized
(metadataExtractor.ts p5 sketch, lines 1100-1142). -/
def windowResizedCanvasSize (cw ch ow oh rw rh : ℚ) : ℚ × ℚ :=
  let wh : ℚ × ℚ :=
    if cw > 0 ∧ ch > 0 then (cw, ch)
    else if ow > 0 ∧ oh > 0 then (ow, oh)
    else if rw > 0 ∧ rh > 0 then (rw, rh)
    else (0, 0)
  let wh2 := if wh.1 ≤ 0 ∨ wh.2 ≤ 0 then ((500 : ℚ), (400 : ℚ)) else wh
  (max (min wh2.1 2000) 100, max (min wh2.2 2000) 100)

/-- The apostrophe character, written by code point to keep string literals
plain. -/
def aposChar : Char := Char.ofNat 39

/-- Model of parseFloat on the digit-and-dot substrings the server extracts:
integer digits, then an optional dot and fraction digits; none models NaN
(for example parseFloat of a lone dot). -/
def jsParseFloat (cs : List Char) : Option ℚ :=
  let intPart := cs.takeWhile Char.isDigit
  let rest := cs.dropWhile Char.isDigit
  let fracPart :=
    match rest with
    | '.' :: r => r.takeWhile Char.isDigit
    | _ => []
  if intPart = [] ∧ fracPart = [] then none
  else some ((natOfDigits intPart : ℚ) + (natOfDigits fracPart : ℚ) / (10 ^ fracPart.length))

/-- First match of the number regex used on focal-length strings: digits, an
optional dot, then more digits, starting at the first digit of the string;
the parseFloat of that match. -/
def firstNumberMatch : List Char → Option ℚ
  | [] => none
  | c :: rest =>
    if c.isDigit then
      let intPart := (c :: rest).takeWhile Char.isDigit
      let after := (c :: rest).dropWhile Char.isDigit
      let fracPart :=
        match after with
        | '.' :: r => r.takeWhile Char.isDigit
        | _ => []
      some ((natOfDigits intPart : ℚ) + (natOfDigits fracPart : ℚ) / (10 ^ fracPart.length))
    else firstNumberMatch rest

/-- Consume an exact literal from the front of a list, or fail. -/
def dropLit (lit cs : List Char) : Option (List Char) :=
  if isPrefixCL lit cs then some (cs.drop lit.length) else none

namespace ExifToolServer

/-- The exiftool JSON record the server reads (server part_000): each tag as
the server consumes it, absent tags as none. -/
structure ExifJson where
  Make : Option String := none
  Model : Option String := none
  LensModel : Option String := none
  FocalLength : Option String := none
  FocalLengthIn35mmFormat : Option String := none
  ISO : Option ℚ := none
  ISOSpeedRatings : Option ℚ := none
  FNumber : Option ℚ := none
  Flash : Option String := none
  Orientation : Option ℚ := none
  DateTimeOriginal : Option String := none
  GPSLatitude : Option String := none
  GPSLongitude : Option String := none
  ImageWidth : Option ℚ := none
  ImageHeight : Option ℚ := none
deriving DecidableEq

/-- Model of the server helper detectPhoneType (part_000 lines 88-117). -/
def detectPhoneType (make model : Option String) : String :=
  match make, model with
  | some mk, some md =>
    if mk = "" ∨ md = "" then "Unknown"
    else
      let makeLower := lowerCL mk.toList
      let modelLower := lowerCL md.toList
      if isInfixCL "apple".toList makeLower || isInfixCL "iphone".toList modelLower then
        if isInfixCL "15".toList modelLower && isInfixCL "pro".toList modelLower then
          "iPhone 15 Pro"
        else if isInfixCL "15".toList modelLower then "iPhone 15"
        else if isInfixCL "14".toList modelLower && isInfixCL "pro".toList modelLower then
          "iPhone 14 Pro"
        else if isInfixCL "14".toList modelLower then "iPhone 14"
        else "iPhone"
      else if isInfixCL "samsung".toList makeLower || isInfixCL "galaxy".toList modelLower then
        "Samsung Galaxy"
      else if isInfixCL "google".toList makeLower || isInfixCL "pixel".toList modelLower then
        "Google Pixel"
      else mk ++ " " ++ md
  | _, _ => "Unknown"

/-- Model of the server helper detectLensType (part_000 lines 120-165):
LensModel keywords, then focal length thresholds, then the 35mm-equivalent
thresholds, defaulting to Wide; an arm whose keyword or number match fails
falls through to the next. -/
def detectLensType (j : ExifJson) : String :=
  let byLensModel : Option String :=
    if strTruthy j.LensModel then
      let lm := lowerCL (j.LensModel.getD "").toList
      if isInfixCL "ultra wide".toList lm || isInfixCL "ultrawide".toList lm then
        some "Ultra Wide"
      else if isInfixCL "telephoto".toList lm then some "Telephoto"
      else if isInfixCL "wide".toList lm then some "Wide"
      else none
    else none
  match byLensModel with
  | some r => r
  | none =>
    let byFocal : Option String :=
      if strTruthy j.FocalLength then
        match firstNumberMatch (j.FocalLength.getD "").toList with
        | some fl =>
          some (if fl < 3 then "Ultra Wide" else if fl > 6 then "Telephoto" else "Wide")
        | none => none
      else none
    match byFocal with
    | some r => r
    | none =>
      if strTruthy j.FocalLengthIn35mmFormat then
        match firstNumberMatch (j.FocalLengthIn35mmFormat.getD "").toList with
        | some f35 =>
          if f35 < 20 then "Ultra Wide" else if f35 > 50 then "Telephoto" else "Wide"
        | none => "Wide"
      else "Wide"

/-- Model of the server helper detectFlash (part_000 lines 168-179). -/
def detectFlash (flashValue : Option String) : Bool :=
  match flashValue with
  | none => false
  | some s =>
    if s = "" then false
    else
      let f := lowerCL s.toList
      if isInfixCL "on".toList f || isInfixCL "fired".toList f then true
      else if isInfixCL "off".toList f || isInfixCL "did not fire".toList f then false
      else false

/-- Try the GPS coordinate regex of parseGPS at the head of the list:
digits, literal " deg ", digits, an apostrophe and a space, a run of digits
and dots, a double quote and a space, then one of the two hemisphere letters.
The seconds value is the parseFloat of its run (none models NaN). -/
def gpsMatchHere (dirA dirB : Char) (cs : List Char) : Option (ℚ × ℚ × Option ℚ × Char) :=
  let degD := cs.takeWhile Char.isDigit
  if degD.isEmpty then none
  else
    (dropLit " deg ".toList (cs.dropWhile Char.isDigit)).bind fun r1 =>
    let minD := r1.takeWhile Char.isDigit
    if minD.isEmpty then none
    else
      (dropLit [aposChar, ' '] (r1.dropWhile Char.isDigit)).bind fun r2 =>
      let secD := r2.takeWhile (fun c => c.isDigit || c = '.')
      if secD.isEmpty then none
      else
        match r2.dropWhile (fun c => c.isDigit || c = '.') with
        | '"' :: ' ' :: d :: _ =>
          if d = dirA ∨ d = dirB then
            some ((natOfDigits degD : ℚ), (natOfDigits minD : ℚ), jsParseFloat secD, d)
          else none
        | _ => none

/-- Leftmost match of the GPS coordinate regex (the pattern is
maximal-munch-safe, so a left-to-right scan is exactly the regex search). -/
def searchGps (dirA dirB : Char) : List Char → Option (ℚ × ℚ × Option ℚ × Char)
  | [] => none
  | c :: rest =>
    match gpsMatchHere dirA dirB (c :: rest) with
    | some m => some m
    | none => searchGps dirA dirB rest

/-- Model of the server helper parseGPS (part_000 lines 182-214): match both
coordinate strings, convert each to decimal degrees as deg + min/60 + sec/3600,
negate southern latitudes and western longitudes; null (none) when either
string is falsy or either regex fails to match. -/
def parseGPS (latStr lonStr : Option String) : Option GpsCoords :=
  match latStr, lonStr with
  | some ls, some os =>
    if ls = "" ∨ os = "" then none
    else
      match searchGps 'N' 'S' ls.toList, searchGps 'E' 'W' os.toList with
      | some (latDeg, latMin, latSec, latDir), some (lonDeg, lonMin, lonSec, lonDir) =>
        let latitude := latSec.map fun s =>
          let v := latDeg + latMin / 60 + s / 3600
          if latDir = 'S' then -v else v
        let longitude := lonSec.map fun s =>
          let v := lonDeg + lonMin / 60 + s / 3600
          if lonDir = 'W' then -v else v
        some { latitude := latitude, longitude := longitude }
      | _, _ => none
  | _, _ => none

/-- Model of the server helper getTimeOfDay (part_000 lines 217-227).
parsedHour is the host's new Date(s).getHours(); none models an invalid date,
whose NaN hour fails both comparisons and yields night. -/
def getTimeOfDay (dateTimeOriginal : Option String) (parsedHour : Option ℚ) : Option String :=
  match dateTimeOriginal with
  | none => none
  | some s =>
    if s = "" then none
    else
      match parsedHour with
      | some hr => some (if 6 ≤ hr ∧ hr < 18 then "day" else "night")
      | none => some "night"

/-- First space-separated token of a character list (split by one space). -/
def splitSpaceFirst (cs : List Char) : List Char := cs.takeWhile (fun c => c ≠ ' ')

/-- Second space-separated token, none when there is no space (the undefined
index [1] of the JavaScript split). -/
def splitSpaceSecond (cs : List Char) : Option (List Char) :=
  match cs.dropWhile (fun c => c ≠ ' ') with
  | ' ' :: r => some (r.takeWhile (fun c => c ≠ ' '))
  | _ => none

/-- Replace every colon with a hyphen (the replace of the date formatting). -/
def replaceColonDash (cs : List Char) : List Char :=
  cs.map fun c => if c = ':' then '-' else c

/-- JavaScript || on optional numbers: a present 0 is falsy. -/
def jsOrNum (a b : Option ℚ) : Option ℚ :=
  match a with
  | some v => if v = 0 then b else some v
  | none => b

/-- The processed-metadata JSON object the endpoint returns on success
(part_000 lines 62-77): exactly the documented fields. -/
structure ProcessedMetadata where
  phoneType : String
  lensType : String
  lens : Option String
  iso : Option ℚ
  aperture : Option ℚ
  flash : Bool
  orientation : Option ℚ
  date : Option String
  time : Option String
  timeOfDay : Option String
  gps : Option GpsCoords
  width : Option ℚ
  height : Option ℚ
  rawMetadata : ExifJson
deriving DecidableEq

/-- Building the processed metadata from the exiftool record (part_000 lines
62-77); a falsy DateTimeOriginal gives null date and time. -/
def processMetadata (j : ExifJson) (parsedHour : Option ℚ) : ProcessedMetadata where
  phoneType := detectPhoneType j.Make j.Model
  lensType := detectLensType j
  lens :=
    if strTruthy j.Make && strTruthy j.Model then
      some ((j.Make.getD "") ++ " " ++ (j.Model.getD ""))
    else none
  iso := jsOrNum j.ISO j.ISOSpeedRatings
  aperture := j.FNumber
  flash := detectFlash j.Flash
  orientation := j.Orientation
  date :=
    match j.DateTimeOriginal with
    | some s =>
      if s = "" then none else some (String.mk (replaceColonDash (splitSpaceFirst s.toList)))
    | none => none
  time :=
    match j.DateTimeOriginal with
    | some s => if s = "" then none else (splitSpaceSecond s.toList).map String.mk
    | none => none
  timeOfDay := getTimeOfDay j.DateTimeOriginal parsedHour
  gps := parseGPS j.GPSLatitude j.GPSLongitude
  width := j.ImageWidth
  height := j.ImageHeight
  rawMetadata := j

/-- Outcome of the exec of the exiftool command: the callback error, or a
stdout whose JSON.parse either yields a first record or fails (none also
covers an empty array, whose missing first element faults in the try block). -/
inductive ExecOutcome where
  | failed : ExecOutcome
  | ok : Option ExifJson → ExecOutcome
deriving DecidableEq

/-- What the POST /api/extract-metadata handler sends and does (part_000 lines
35-85): HTTP status, success body, error body, and whether fs.unlink was
invoked on the uploaded file. -/
structure EndpointResult where
  status : ℕ
  body : Option ProcessedMetadata
  errorMsg : Option String
  fileDeleted : Bool
deriving DecidableEq

/-- Model of the POST /api/extract-metadata handler (part_000 lines 35-85):
no uploaded file gives 400 before anything runs; otherwise the file is
unlinked first thing in the exec callback, then an exec error gives 500, an
unparsable output gives 500, and a parsed record gives 200 with the processed
metadata. -/
def extractMetadataEndpoint (reqFile : Option String) (execResult : ExecOutcome)
    (parsedHour : Option ℚ) : EndpointResult :=
  match reqFile with
  | none =>
    { status := 400, body := none, errorMsg := some "No image file provided",
      fileDeleted := false }
  | some _ =>
    match execResult with
    | .failed =>
      { status := 500, body := none, errorMsg := some "Failed to extract metadata",
        fileDeleted := true }
    | .ok none =>
      { status := 500, body := none, errorMsg := some "Failed to parse metadata",
        fileDeleted := true }
    | .ok (some j) =>
      { status := 200, body := some (processMetadata j parsedHour), errorMsg := none,
        fileDeleted := true }

end ExifToolServer

/-- C3 counterexample: the claim says the conversion result is negative if and
only if the hemisphere letter is S or W, but at the all-zero triple with
letter S the result is zero, which is not negative. -/
theorem convertDMSToDD_zero_S_counterexample :
    convertDMSToDD [0, 0, 0] "S" = some 0 ∧ ¬ ((0 : ℚ) < 0) := by
  refine ⟨?_, by norm_num⟩
  norm_num [convertDMSToDD]

/-- C3 (amended): for every nonnegative degrees/minutes/seconds triple the
conversion returns dd = deg + min/60 + sec/3600 negated exactly when the
letter is S or W; the result is negative iff the letter is S or W and the
magnitude is nonzero; and convert(40, 40, 39.25, N) is within 0.0001 of
40.6776. -/
theorem convertDMSToDD_correct (d m s : ℚ) (ref : String)
    (hd : 0 ≤ d) (hm : 0 ≤ m) (hs : 0 ≤ s) :
    (convertDMSToDD [d, m, s] ref =
      some (if ref = "S" ∨ ref = "W" then -(d + m / 60 + s / 3600)
            else d + m / 60 + s / 3600)) ∧
    (∀ x, convertDMSToDD [d, m, s] ref = some x →
      (x < 0 ↔ (ref = "S" ∨ ref = "W") ∧ 0 < d + m / 60 + s / 3600)) ∧
    (∀ x, convertDMSToDD [40, 40, 157/4] "N" = some x → |x - 406776/10000| < 1/10000) := by
  have hdd : 0 ≤ d + m / 60 + s / 3600 := by positivity
  have hmain : convertDMSToDD [d, m, s] ref =
      some (if ref = "S" ∨ ref = "W" then -(d + m / 60 + s / 3600)
            else d + m / 60 + s / 3600) := by
    by_cases h : ref = "S" ∨ ref = "W" <;> simp [convertDMSToDD, h] <;> ring_nf
  refine ⟨hmain, ?_, ?_⟩
  · intro x hx
    rw [hmain] at hx
    obtain rfl := Option.some_inj.mp hx
    by_cases h : ref = "S" ∨ ref = "W"
    · rw [if_pos h]
      constructor
      · intro hneg
        exact ⟨h, neg_lt_zero.mp hneg⟩
      · rintro ⟨-, hpos⟩
        exact neg_lt_zero.mpr hpos
    · rw [if_neg h]
      constructor
      · intro hneg
        exact absurd hneg (not_lt.mpr hdd)
      · rintro ⟨habs, -⟩
        exact absurd habs h
  · intro x hx
    have hval : convertDMSToDD [40, 40, (157 : ℚ)/4] "N" =
        some ((40 : ℚ) + 40 / 60 + (157/4) / (60 * 60)) := by
      have hn : ¬ ("N" = "S" ∨ "N" = "W") := by decide
      simp only [convertDMSToDD, if_neg hn]
    rw [hval] at hx
    obtain rfl := Option.some_inj.mp hx
    rw [abs_sub_lt_iff]
    constructor <;> norm_num

/-- C4 counterexample: the sensitivity 0 is falsy in JavaScript, so
mapIsoToDensity returns the 0.3 default for it instead of the claimed minimum
density 0.05, breaking both the monotonicity claim (0 ≤ 10 but the density
drops from 0.3 to 0.05) and the claimed low clamp. -/
theorem mapIsoToDensity_zero_counterexample :
    mapIsoToDensity (some 0) = 3/10 ∧ mapIsoToDensity (some 10) = 1/20 ∧
    ¬ mapIsoToDensity (some 0) ≤ mapIsoToDensity (some 10) := by
  have h0 : mapIsoToDensity (some 0) = 3/10 := by norm_num [mapIsoToDensity]
  have h10 : mapIsoToDensity (some 10) = 1/20 := by
    norm_num [mapIsoToDensity, jsMathRound, min_def, max_def]
  refine ⟨h0, h10, ?_⟩
  rw [h0, h10]
  norm_num

/-- C4 (amended): on nonzero sensitivities the density mapping is monotone
non-decreasing and clamps: every nonzero sensitivity at most 24 yields the
minimum density 0.05 and every sensitivity at least 2000 yields the maximum
density 1.0; the falsy sensitivity 0 (like a missing one) instead yields the
0.3 default, the exception the counterexample forces. -/
theorem mapIsoToDensity_monotone_clamped :
    (∀ a b : ℚ, a ≠ 0 → b ≠ 0 → a ≤ b →
      mapIsoToDensity (some a) ≤ mapIsoToDensity (some b)) ∧
    (∀ i : ℚ, i ≠ 0 → i ≤ 24 → mapIsoToDensity (some i) = 1/20) ∧
    (∀ i : ℚ, 2000 ≤ i → mapIsoToDensity (some i) = 1) ∧
    mapIsoToDensity (some 0) = 3/10 ∧ mapIsoToDensity none = 3/10 := by
  refine ⟨?_, ?_, ?_, by norm_num [mapIsoToDensity], by norm_num [mapIsoToDensity]⟩
  · intro a b ha hb hab
    simp only [mapIsoToDensity, if_neg ha, if_neg hb, jsMathRound]
    have hclamp : max 24 (min 2000 a) ≤ max 24 (min 2000 b) :=
      max_le_max le_rfl (min_le_min le_rfl hab)
    have hfloor : ⌊(1/20 + (max 24 (min 2000 a) - 24) / (2000 - 24) * (1 - 1/20)) * 100 + 1/2⌋
        ≤ ⌊(1/20 + (max 24 (min 2000 b) - 24) / (2000 - 24) * (1 - 1/20)) * 100 + 1/2⌋ := by
      apply Int.floor_mono
      have : (max 24 (min 2000 a) - 24) / (2000 - 24) ≤
          (max 24 (min 2000 b) - 24) / (2000 - 24) := by
        apply div_le_div_of_nonneg_right _ (by norm_num)
        linarith
      nlinarith [this]
    exact div_le_div_of_nonneg_right (by exact_mod_cast hfloor) (by norm_num)
  · intro i hne hle
    have h1 : min 2000 i = i := min_eq_right (by linarith)
    have h2 : max 24 (min 2000 i) = 24 := by rw [h1]; exact max_eq_left hle
    simp only [mapIsoToDensity, if_neg hne, h2, jsMathRound]
    norm_num
  · intro i hge
    have hne : i ≠ 0 := by intro h; rw [h] at hge; norm_num at hge
    have h1 : min 2000 i = 2000 := min_eq_left hge
    have h2 : max 24 (min 2000 i) = 2000 := by rw [h1]; norm_num
    simp only [mapIsoToDensity, if_neg hne, h2, jsMathRound]
    norm_num

/-- C4 witness: the amended theorem applied at the concrete pair 30 ≤ 500 and
the clamp bounds 10 and 3000. -/
theorem mapIsoToDensity_monotone_clamped_witness :
    mapIsoToDensity (some 30) ≤ mapIsoToDensity (some 500) ∧
    mapIsoToDensity (some 10) = 1/20 ∧ mapIsoToDensity (some 3000) = 1 :=
  ⟨mapIsoToDensity_monotone_clamped.1 30 500 (by norm_num) (by norm_num) (by norm_num),
   mapIsoToDensity_monotone_clamped.2.1 10 (by norm_num) (by norm_num),
   mapIsoToDensity_monotone_clamped.2.2.1 3000 (by norm_num)⟩

/-- C3 witness: the amended conversion theorem applied at the documented
triple 40 deg 40 min 39.25 sec north. -/
theorem convertDMSToDD_correct_witness :
    convertDMSToDD [40, 40, 157/4] "N" =
      some (if "N" = "S" ∨ "N" = "W" then -((40 : ℚ) + 40 / 60 + (157/4) / 3600)
            else (40 : ℚ) + 40 / 60 + (157/4) / 3600) :=
  (convertDMSToDD_correct 40 40 (157/4) "N" (by norm_num) (by norm_num) (by norm_num)).1

/-- C5: for the 4000 by 3000 upload named IMG_20230615_143000.jpg of 7.2 MB
(7200000 bytes) with no embedded tags and the metadata service unavailable,
the file-property stage parses date 2023-06-15, time 14:30:00 and timeOfDay
day from the filename (for any outcome of the random draws and of the
lastModified fallback), and the size bucket of the img_-prefixed name
(over 6 MB, at most 8 MB) picks the iPhone 15 device class. -/
theorem extractFromFileProperties_scenario (rnd : FilePropsRand)
    (lmDate lmTime : String) (lmHour curMonth : ℚ) :
    (extractFromFileProperties "IMG_20230615_143000.jpg" 7200000 4000 3000 rnd
      lmDate lmTime lmHour curMonth).date = some "2023-06-15" ∧
    (extractFromFileProperties "IMG_20230615_143000.jpg" 7200000 4000 3000 rnd
      lmDate lmTime lmHour curMonth).time = some "14:30:00" ∧
    (extractFromFileProperties "IMG_20230615_143000.jpg" 7200000 4000 3000 rnd
      lmDate lmTime lmHour curMonth).timeOfDay = some "day" ∧
    (extractFromFileProperties "IMG_20230615_143000.jpg" 7200000 4000 3000 rnd
      lmDate lmTime lmHour curMonth).phoneType = some "iPhone 15" ∧
    detectPhoneTypeFromFile "img_20230615_143000.jpg" 7200000 = "iPhone 15" :=
  ⟨rfl, rfl, rfl, rfl, rfl⟩

/-- C6 counterexample: with the selection already at the last pattern type
(index 2), a 60px rightward drag crosses the 50px threshold yet advances zero
steps and leaves the drag origin in place, so a crossing does not always
advance the selection by exactly one step. -/
theorem patternTypeDragStep_end_stop_counterexample :
    patternTypeDragStep { startX := 0, idx := 2 } 60 = { startX := 0, idx := 2 } ∧
    (60 : ℚ) - 0 > 50 := by
  constructor
  · norm_num [patternTypeDragStep, min_def, max_def]
  · norm_num

/-- C6 (amended): a drag whose every sampled position stays within the 50px
threshold of the drag origin never changes the selector state; from a valid
selection (index 0..2) one processed move changes the index by at most one
step and keeps it valid, regardless of total drag distance; and a crossing
advances exactly one step and resets the drag origin whenever the selection is
not already at the end stop in the drag direction. -/
theorem patternTypeDragStep_threshold :
    (∀ (st : PatternDragState) (xs : List ℚ),
      (∀ x ∈ xs, |x - st.startX| ≤ 50) → xs.foldl patternTypeDragStep st = st) ∧
    (∀ (st : PatternDragState) (x : ℚ), 0 ≤ st.idx → st.idx ≤ 2 →
      0 ≤ (patternTypeDragStep st x).idx ∧ (patternTypeDragStep st x).idx ≤ 2 ∧
      |(patternTypeDragStep st x).idx - st.idx| ≤ 1) ∧
    (∀ (st : PatternDragState) (x : ℚ), x - st.startX > 50 → st.idx < 2 →
      patternTypeDragStep st x = { startX := x, idx := st.idx + 1 }) ∧
    (∀ (st : PatternDragState) (x : ℚ), x - st.startX < -50 → 0 < st.idx →
      patternTypeDragStep st x = { startX := x, idx := st.idx - 1 }) := by
  have hsmall : ∀ (st : PatternDragState) (x : ℚ), |x - st.startX| ≤ 50 →
      patternTypeDragStep st x = st := by
    intro st x h
    simp only [patternTypeDragStep]
    rw [if_neg (by exact not_lt.mpr h)]
  refine ⟨?_, ?_, ?_, ?_⟩
  · intro st xs
    induction xs with
    | nil => intro _; rfl
    | cons x xs ih =>
      intro h
      have hx := h x (List.mem_cons_self x xs)
      simp only [List.foldl_cons, hsmall st x hx]
      exact ih (fun y hy => h y (List.mem_cons_of_mem x hy))
  · intro st x h0 h2
    simp only [patternTypeDragStep]
    split_ifs
    all_goals try dsimp only
    all_goals exact ⟨by omega, by omega, by rw [abs_le]; constructor <;> omega⟩
  · intro st x hgt hlt
    simp only [patternTypeDragStep]
    split_ifs with h1 h2 h3 h4
    · have hmin : min 2 (st.idx + 1) = st.idx + 1 := by omega
      rw [hmin]
    · exfalso; omega
    · exfalso; linarith
    · exfalso; linarith
    · exfalso
      have := le_abs_self (x - st.startX)
      linarith
  · intro st x hlt hpos
    simp only [patternTypeDragStep]
    split_ifs with h1 h2 h3 h4
    · exfalso; linarith
    · exfalso; linarith
    · have hmax : max 0 (st.idx - 1) = st.idx - 1 := by omega
      rw [hmax]
    · exfalso; omega
    · exfalso
      have := neg_abs_le (x - st.startX)
      linarith

/-- C6 witness: the amended theorem applied to a 30px two-step drag that stays
under the threshold, one valid-state move, and the two exact-advance cases. -/
theorem patternTypeDragStep_threshold_witness :
    ([ (10 : ℚ), 30 ].foldl patternTypeDragStep { startX := 0, idx := 1 } =
      { startX := 0, idx := 1 }) ∧
    patternTypeDragStep { startX := 0, idx := 0 } 60 = { startX := 60, idx := 1 } ∧
    patternTypeDragStep { startX := 0, idx := 2 } (-60) = { startX := -60, idx := 1 } :=
  ⟨patternTypeDragStep_threshold.1 { startX := 0, idx := 1 } [10, 30]
      (by
        intro x hx
        simp only [List.mem_cons, List.not_mem_nil, or_false] at hx
        rcases hx with rfl | rfl <;> norm_num),
   patternTypeDragStep_threshold.2.2.1 { startX := 0, idx := 0 } 60
      (by norm_num) (by norm_num),
   patternTypeDragStep_threshold.2.2.2 { startX := 0, idx := 2 } (-60)
      (by norm_num) (by norm_num)⟩

/-- C7: the no-tint markers are exact no-ops: applyTint with the falsy null
tint returns every color unchanged, and the drawWavePattern fill with the
"#FFFFFF" marker (or no tint at all) is the unchanged white base; the blend is
not idempotent in general, as one concrete tint applied twice shows (the source
blends hue by a 0.3-weighted shift each application). -/
theorem applyTint_noop_markers :
    (∀ c : HSBColor, applyTint c none = c) ∧
    waveFillColor (some "#FFFFFF") = some (255, 255, 255) ∧
    waveFillColor none = some (255, 255, 255) ∧
    applyTint (applyTint { h := 0, s := 0, b := 100, a := 100 }
        (some { h := 100, s := 0, b := 50, a := 100 }))
        (some { h := 100, s := 0, b := 50, a := 100 }) ≠
      applyTint { h := 0, s := 0, b := 100, a := 100 }
        (some { h := 100, s := 0, b := 50, a := 100 }) := by
  refine ⟨fun c => rfl, by decide, by decide, ?_⟩
  have h1 : applyTint { h := 0, s := 0, b := 100, a := 100 }
      (some { h := 100, s := 0, b := 50, a := 100 }) =
      { h := 30, s := 0, b := 100, a := 100 } := by
    norm_num [applyTint, jsMod, ratTrunc, HSBColor.mk.injEq]
  rw [h1]
  have h2 : applyTint { h := 30, s := 0, b := 100, a := 100 }
      (some { h := 100, s := 0, b := 50, a := 100 }) =
      { h := 60, s := 0, b := 100, a := 100 } := by
    norm_num [applyTint, jsMod, ratTrunc, HSBColor.mk.injEq]
  rw [h2]
  simp [HSBColor.mk.injEq]

/-- (x <|> none) = x, for normalising the field merge chains. -/
theorem orElseNone {α : Type} (x : Option α) : (x <|> none) = x := by cases x <;> rfl

/-- (none <|> x) = x, for normalising the field merge chains. -/
theorem noneOrElse {α : Type} (x : Option α) : ((none : Option α) <|> x) = x := by
  cases x <;> rfl

/-- (some a <|> x) = some a, for normalising the field merge chains. -/
theorem someOrElse {α : Type} (a : α) (x : Option α) : ((some a : Option α) <|> x) = some a :=
  rfl

/-- C8: on canvas creation and on every resize the same dimension resolution
runs; the produced width and height always land in the 100..2000 clamp range;
a reported container dimension below 100 or above 2000 is clamped to the
bound; and a zero-size container (all three measurement strategies reporting
no positive size) falls back to the fixed 500 by 400 default. -/
theorem canvasSize_clamped_and_fallback :
    (∀ cw ch ow oh rw rh : ℚ,
      windowResizedCanvasSize cw ch ow oh rw rh = setupCanvasSize cw ch ow oh rw rh) ∧
    (∀ cw ch ow oh rw rh : ℚ,
      100 ≤ (setupCanvasSize cw ch ow oh rw rh).1 ∧
      (setupCanvasSize cw ch ow oh rw rh).1 ≤ 2000 ∧
      100 ≤ (setupCanvasSize cw ch ow oh rw rh).2 ∧
      (setupCanvasSize cw ch ow oh rw rh).2 ≤ 2000) ∧
    (∀ cw ch ow oh rw rh : ℚ, 0 < cw → 0 < ch →
      (cw < 100 → (setupCanvasSize cw ch ow oh rw rh).1 = 100) ∧
      (2000 < cw → (setupCanvasSize cw ch ow oh rw rh).1 = 2000) ∧
      (ch < 100 → (setupCanvasSize cw ch ow oh rw rh).2 = 100) ∧
      (2000 < ch → (setupCanvasSize cw ch ow oh rw rh).2 = 2000)) ∧
    (∀ cw ch ow oh rw rh : ℚ,
      ¬ (cw > 0 ∧ ch > 0) → ¬ (ow > 0 ∧ oh > 0) → ¬ (rw > 0 ∧ rh > 0) →
      setupCanvasSize cw ch ow oh rw rh = (500, 400)) := by
  refine ⟨fun _ _ _ _ _ _ => rfl, ?_, ?_, ?_⟩
  · intro cw ch ow oh rw rh
    simp only [setupCanvasSize]
    exact ⟨le_max_right _ _, max_le (min_le_right _ _) (by norm_num),
      le_max_right _ _, max_le (min_le_right _ _) (by norm_num)⟩
  · intro cw ch ow oh rw rh h1 h2
    have hpos : cw > 0 ∧ ch > 0 := ⟨h1, h2⟩
    have hneg : ¬ ((cw, ch).1 ≤ 0 ∨ (cw, ch).2 ≤ 0) := by
      simp only [not_or, not_le]
      exact ⟨h1, h2⟩
    simp only [setupCanvasSize, if_pos hpos, if_neg hneg]
    refine ⟨fun hc => ?_, fun hc => ?_, fun hc => ?_, fun hc => ?_⟩
    · rw [min_eq_left (by linarith : cw ≤ 2000), max_eq_right (by linarith : cw ≤ 100)]
    · rw [min_eq_right (by linarith : (2000 : ℚ) ≤ cw), max_eq_left (by norm_num : (100 : ℚ) ≤ 2000)]
    · rw [min_eq_left (by linarith : ch ≤ 2000), max_eq_right (by linarith : ch ≤ 100)]
    · rw [min_eq_right (by linarith : (2000 : ℚ) ≤ ch), max_eq_left (by norm_num : (100 : ℚ) ≤ 2000)]
  · intro cw ch ow oh rw rh h1 h2 h3
    simp only [setupCanvasSize, if_neg h1, if_neg h2, if_neg h3]
    norm_num

/-- C8 witness: the clamp and fallback parts of the theorem applied at a
50 by 300 container and at an all-zero container. -/
theorem canvasSize_clamped_and_fallback_witness :
    (setupCanvasSize 50 300 0 0 0 0).1 = 100 ∧
    setupCanvasSize 0 0 0 0 0 0 = (500, 400) :=
  ⟨(canvasSize_clamped_and_fallback.2.2.1 50 300 0 0 0 0 (by norm_num) (by norm_num)).1
      (by norm_num),
   canvasSize_clamped_and_fallback.2.2.2 0 0 0 0 0 0 (by norm_num) (by norm_num) (by norm_num)⟩

/-- C10: for every metadata record the mapped render parameters are bounded:
flowIntensity at most 1.0, depthLayers between 1 and 5, particleSize between
0.5 and 3.0, motionBlur between 0.0 and 1.0. -/
theorem mapMetadataToP5Params_bounded (m : ImageMetadata) (seed : Option ℚ) (now : ℚ) :
    (mapMetadataToP5Params m seed now).flowIntensity ≤ 1 ∧
    1 ≤ (mapMetadataToP5Params m seed now).depthLayers ∧
    (mapMetadataToP5Params m seed now).depthLayers ≤ 5 ∧
    1/2 ≤ (mapMetadataToP5Params m seed now).particleSize ∧
    (mapMetadataToP5Params m seed now).particleSize ≤ 3 ∧
    0 ≤ (mapMetadataToP5Params m seed now).motionBlur ∧
    (mapMetadataToP5Params m seed now).motionBlur ≤ 1 := by
  simp only [mapMetadataToP5Params]
  refine ⟨?_, ?_, ?_, ?_, ?_, ?_, ?_⟩
  · unfold mapMetadataToFlowIntensity
    exact min_le_left _ _
  · unfold mapMetadataToDepthLayers
    exact le_min (by norm_num) (le_max_left _ _)
  · unfold mapMetadataToDepthLayers
    exact min_le_left _ _
  · unfold mapMetadataToParticleSize
    exact le_max_left _ _
  · unfold mapMetadataToParticleSize
    exact max_le (by norm_num) (min_le_left _ _)
  · unfold mapMetadataToMotionBlur
    refine le_min (by norm_num) ?_
    split_ifs <;> norm_num
  · unfold mapMetadataToMotionBlur
    exact min_le_left _ _

/-- C9 counterexample: a request carrying no image file is answered 400 with
an error, neither a 200 success nor the claimed 500, so "on failure the
response is 500" does not hold of every request. -/
theorem extractMetadataEndpoint_no_file_counterexample :
    (ExifToolServer.extractMetadataEndpoint none ExifToolServer.ExecOutcome.failed
      none).status = 400 ∧
    (ExifToolServer.extractMetadataEndpoint none ExifToolServer.ExecOutcome.failed
      none).status ≠ 500 ∧
    (ExifToolServer.extractMetadataEndpoint none ExifToolServer.ExecOutcome.failed
      none).body = none :=
  ⟨rfl, by decide, rfl⟩

/-- C9 (amended): every request that does carry an image file has the uploaded
file deleted regardless of outcome, and is answered either 200 with the
processed-metadata record (whose type ProcessedMetadata has exactly the
documented fields phoneType, lensType, lens, iso, aperture, flash,
orientation, date, time, timeOfDay, gps, width, height, rawMetadata) or 500
with an error object; a request carrying no file is instead rejected 400 with
an error object before any file exists to delete. -/
theorem extractMetadataEndpoint_contract (f : Option String)
    (ex : ExifToolServer.ExecOutcome) (hr : Option ℚ) :
    (f = none →
      (ExifToolServer.extractMetadataEndpoint f ex hr).status = 400 ∧
      (ExifToolServer.extractMetadataEndpoint f ex hr).errorMsg.isSome = true ∧
      (ExifToolServer.extractMetadataEndpoint f ex hr).fileDeleted = false) ∧
    (f.isSome = true →
      (ExifToolServer.extractMetadataEndpoint f ex hr).fileDeleted = true ∧
      (((ExifToolServer.extractMetadataEndpoint f ex hr).status = 200 ∧
        ∃ j, ex = ExifToolServer.ExecOutcome.ok (some j) ∧
          (ExifToolServer.extractMetadataEndpoint f ex hr).body =
            some (ExifToolServer.processMetadata j hr)) ∨
       ((ExifToolServer.extractMetadataEndpoint f ex hr).status = 500 ∧
        (ExifToolServer.extractMetadataEndpoint f ex hr).body = none ∧
        (ExifToolServer.extractMetadataEndpoint f ex hr).errorMsg.isSome = true))) := by
  cases f with
  | none =>
    refine ⟨fun _ => ⟨rfl, rfl, rfl⟩, fun h => ?_⟩
    simp at h
  | some p =>
    refine ⟨fun h => by simp at h, fun _ => ?_⟩
    cases ex with
    | failed => exact ⟨rfl, Or.inr ⟨rfl, rfl, rfl⟩⟩
    | ok po =>
      cases po with
      | none => exact ⟨rfl, Or.inr ⟨rfl, rfl, rfl⟩⟩
      | some j => exact ⟨rfl, Or.inl ⟨rfl, j, rfl, rfl⟩⟩

/-- C9 witness: the amended contract applied to a request with a file whose
exiftool output parses. -/
theorem extractMetadataEndpoint_contract_witness :
    (ExifToolServer.extractMetadataEndpoint (some "uploads/1-a.jpg")
      (ExifToolServer.ExecOutcome.ok (some {})) none).fileDeleted = true :=
  ((extractMetadataEndpoint_contract (some "uploads/1-a.jpg")
      (ExifToolServer.ExecOutcome.ok (some {})) none).2 rfl).1

/-- C2: extractRealMetadata produces a record on every extraction path: a
successful ExifTool API stage is returned as is; and even when the API stage
fails, the pixel analysis aborts for want of a canvas context, and the EXIF
stage finds nothing, the call still returns the file-based heuristic record
carrying the image element dimensions, instead of raising to the caller. -/
theorem extractRealMetadata_total (mAPI imageAnalysis fileBasedData : ImageMetadata)
    (exifData : Option ImageMetadata) (elemW elemH : ℚ) (b v nw nh fs r1 r2 : ℚ) :
    (extractRealMetadata (some mAPI) elemW elemH imageAnalysis exifData fileBasedData
      = mAPI) ∧
    ((extractRealMetadata none elemW elemH
        (analyzeImageCharacteristics false b v nw nh fs r1 r2) none
        fileBasedData).width = some elemW ∧
     (extractRealMetadata none elemW elemH
        (analyzeImageCharacteristics false b v nw nh fs r1 r2) none
        fileBasedData).height = some elemH ∧
     (extractRealMetadata none elemW elemH
        (analyzeImageCharacteristics false b v nw nh fs r1 r2) none
        fileBasedData).phoneType = fileBasedData.phoneType ∧
     (extractRealMetadata none elemW elemH
        (analyzeImageCharacteristics false b v nw nh fs r1 r2) none
        fileBasedData).lensType = fileBasedData.lensType ∧
     (extractRealMetadata none elemW elemH
        (analyzeImageCharacteristics false b v nw nh fs r1 r2) none
        fileBasedData).iso = fileBasedData.iso ∧
     (extractRealMetadata none elemW elemH
        (analyzeImageCharacteristics false b v nw nh fs r1 r2) none
        fileBasedData).date = fileBasedData.date ∧
     (extractRealMetadata none elemW elemH
        (analyzeImageCharacteristics false b v nw nh fs r1 r2) none
        fileBasedData).timeOfDay = fileBasedData.timeOfDay ∧
     (extractRealMetadata none elemW elemH
        (analyzeImageCharacteristics false b v nw nh fs r1 r2) none
        fileBasedData).gps = fileBasedData.gps) := by
  refine ⟨rfl, ?_⟩
  have hempty : analyzeImageCharacteristics false b v nw nh fs r1 r2 = {} := rfl
  rw [hempty]
  refine ⟨rfl, rfl, ?_, ?_, ?_, ?_, ?_, ?_⟩ <;>
    simp only [extractRealMetadata, objectAssign, fillUndefined, noneOrElse, orElseNone]

/-- C1: first writer wins. When the ExifTool API stage succeeds its record is
returned as is, no later stage running; otherwise every metadata field of the
result equals the leftmost set value in stage order pixel analysis, then
embedded-tag parsing, then file heuristics, so a later stage never changes a
field an earlier stage set; width and height, which no stage writes (the two
hypotheses record that the pixel analysis never produces them, visible in
analyzeImageCharacteristics), carry the image element dimensions. -/
theorem extractRealMetadata_first_writer_wins
    (exifToolResult : Option ImageMetadata) (elemW elemH : ℚ)
    (imageAnalysis fileBasedData : ImageMetadata) (exifData : Option ImageMetadata)
    (hw : imageAnalysis.width = none) (hh : imageAnalysis.height = none) :
    (∀ mAPI, exifToolResult = some mAPI →
      extractRealMetadata exifToolResult elemW elemH imageAnalysis exifData fileBasedData
        = mAPI) ∧
    (exifToolResult = none →
      ((extractRealMetadata exifToolResult elemW elemH imageAnalysis exifData
          fileBasedData).phoneType =
        ((imageAnalysis.phoneType <|> (exifData.getD {}).phoneType) <|>
          fileBasedData.phoneType) ∧
       (extractRealMetadata exifToolResult elemW elemH imageAnalysis exifData
          fileBasedData).lensType =
        ((imageAnalysis.lensType <|> (exifData.getD {}).lensType) <|>
          fileBasedData.lensType) ∧
       (extractRealMetadata exifToolResult elemW elemH imageAnalysis exifData
          fileBasedData).lens =
        ((imageAnalysis.lens <|> (exifData.getD {}).lens) <|> fileBasedData.lens) ∧
       (extractRealMetadata exifToolResult elemW elemH imageAnalysis exifData
          fileBasedData).iso =
        ((imageAnalysis.iso <|> (exifData.getD {}).iso) <|> fileBasedData.iso) ∧
       (extractRealMetadata exifToolResult elemW elemH imageAnalysis exifData
          fileBasedData).flash =
        ((imageAnalysis.flash <|> (exifData.getD {}).flash) <|> fileBasedData.flash) ∧
       (extractRealMetadata exifToolResult elemW elemH imageAnalysis exifData
          fileBasedData).orientation =
        ((imageAnalysis.orientation <|> (exifData.getD {}).orientation) <|>
          fileBasedData.orientation) ∧
       (extractRealMetadata exifToolResult elemW elemH imageAnalysis exifData
          fileBasedData).aperture =
        ((imageAnalysis.aperture <|> (exifData.getD {}).aperture) <|>
          fileBasedData.aperture) ∧
       (extractRealMetadata exifToolResult elemW elemH imageAnalysis exifData
          fileBasedData).timeOfDay =
        ((imageAnalysis.timeOfDay <|> (exifData.getD {}).timeOfDay) <|>
          fileBasedData.timeOfDay) ∧
       (extractRealMetadata exifToolResult elemW elemH imageAnalysis exifData
          fileBasedData).date =
        ((imageAnalysis.date <|> (exifData.getD {}).date) <|> fileBasedData.date) ∧
       (extractRealMetadata exifToolResult elemW elemH imageAnalysis exifData
          fileBasedData).time =
        ((imageAnalysis.time <|> (exifData.getD {}).time) <|> fileBasedData.time) ∧
       (extractRealMetadata exifToolResult elemW elemH imageAnalysis exifData
          fileBasedData).season =
        ((imageAnalysis.season <|> (exifData.getD {}).season) <|> fileBasedData.season) ∧
       (extractRealMetadata exifToolResult elemW elemH imageAnalysis exifData
          fileBasedData).gps =
        ((imageAnalysis.gps <|> (exifData.getD {}).gps) <|> fileBasedData.gps) ∧
       (extractRealMetadata exifToolResult elemW elemH imageAnalysis exifData
          fileBasedData).width = some elemW ∧
       (extractRealMetadata exifToolResult elemW elemH imageAnalysis exifData
          fileBasedData).height = some elemH)) := by
  constructor
  · intro mAPI h
    subst h
    rfl
  · intro h
    subst h
    rcases exifData with _ | e <;>
      refine ⟨?_, ?_, ?_, ?_, ?_, ?_, ?_, ?_, ?_, ?_, ?_, ?_, ?_, ?_⟩ <;>
      simp only [extractRealMetadata, objectAssign, fillUndefined, Option.getD_none,
        Option.getD_some, orElseNone, noneOrElse, someOrElse, hw, hh]

/-- C1 witness: the first-writer theorem applied with a failed API stage, an
empty pixel analysis (which indeed has no width), no EXIF record, and an empty
file-based record: every field then falls through and the dimensions come
from the image element. -/
theorem extractRealMetadata_first_writer_wins_witness :
    ({} : ImageMetadata).width = none ∧
    (extractRealMetadata none 4 3 {} none {}).width = some 4 :=
  ⟨rfl,
    ((extractRealMetadata_first_writer_wins none 4 3 {} {} none rfl rfl).2
      rfl).2.2.2.2.2.2.2.2.2.2.2.2.1⟩

end PatternGen
